import Mathlib

/-!
Shallow embedding of the Luiz-Camara-Script furniture hole/connection engine
(src/app.py, src/generate_furniture_json.py, src/legs.py, src/solve_backup.py).
Coordinates and dimensions are millimetre values, modelled as exact rationals.
Python's `round(v, ndigits)` rounds half to even; it is modelled exactly on ℚ.
Namespaces mirror the source files: `App` for src/app.py, `GenJson` for
src/generate_furniture_json.py, `Legs` for src/legs.py.  In-place mutation of
piece/face dictionaries is modelled by explicit state passing: each embedded
function returns the updated record(s) it mutates in the Python source.
-/

/-- Round half to even to the nearest integer, modelling Python's `round(v)`.
(`Rat.floor` is used rather than `⌊·⌋` so that the kernel can evaluate it;
the two agree by `rat_floor_eq_intFloor`.) -/
def hre (q : ℚ) : ℤ :=
  if q - Rat.floor q < 1/2 then Rat.floor q
  else if 1/2 < q - Rat.floor q then Rat.floor q + 1
  else if Even (Rat.floor q) then Rat.floor q else Rat.floor q + 1

/-- Round to one decimal place, modelling Python's `round(v, 1)`. -/
def round1 (v : ℚ) : ℚ := (hre (v * 10) : ℚ) / 10

/-- Truncation toward zero, modelling Python's `int(...)` on a number. -/
def truncInt (q : ℚ) : ℤ := if q < 0 then -(Rat.floor (-q)) else Rat.floor q

/-- Descending insertion used to model Python's `sorted(l, reverse=True)`. -/
def insertDesc (x : ℚ) : List ℚ → List ℚ
  | [] => [x]
  | y :: ys => if y < x then x :: y :: ys else y :: insertDesc x ys

/-- Model of Python's builtin `sorted(l, reverse=True)` on rationals. -/
def pySortedDesc (l : List ℚ) : List ℚ := l.foldr insertDesc []

/-- Boolean prefix test on character lists (helper for substring checks). -/
def isPrefixOfB : List Char → List Char → Bool
  | [], _ => true
  | _ :: _, [] => false
  | a :: as, b :: bs => a == b && isPrefixOfB as bs

/-- Boolean substring test on character lists (helper for Python's `in`). -/
def isInfixOfB (pat : List Char) : List Char → Bool
  | [] => isPrefixOfB pat []
  | c :: rest => isPrefixOfB pat (c :: rest) || isInfixOfB pat rest

/-- Model of Python's `pat in s` on strings. -/
def strContains (s pat : String) : Bool := isInfixOfB pat.data s.data

/-- A drill hole as built by `criar_hole` in src/app.py and
src/generate_furniture_json.py.  `targetType` holds the integer value whose
decimal string the Python stores (`str(int(float(target_type)))`). -/
structure Hole where
  x : ℚ
  y : ℚ
  type : String
  targetType : ℤ
  ferragemSymbols : List String
  connectionId : Option ℕ := none
  depth : Option ℚ := none
  diameter : Option ℚ := none
deriving DecidableEq

/-- A connection-area rectangle on a face (src/app.py and
src/generate_furniture_json.py dictionaries).  Mirrored singer areas carry no
connection id, hence the `Option`. -/
structure ConnArea where
  x_min : ℚ
  y_min : ℚ
  x_max : ℚ
  y_max : ℚ
  fill : String
  opacity : ℚ
  connectionId : Option ℕ := none
deriving DecidableEq

/-- One face record: `{"holes": [...], "connectionAreas": [...],
"dimensions": {"width": w, "height": h}}`. -/
structure Face where
  holes : List Hole
  connAreas : List ConnArea
  width : ℚ
  height : ℚ
deriving DecidableEq

/-- A 3D piece as built by `construir_peca_3d` (src/app.py and
src/generate_furniture_json.py): position, classified dimensions and the six
named faces of the `faces` dictionary. -/
structure Piece where
  name : String
  posX : ℚ
  posY : ℚ
  posZ : ℚ
  length : ℚ
  height : ℚ
  thickness : ℚ
  half_thickness : ℚ
  main : Face
  other_main : Face
  top : Face
  bottom : Face
  left : Face
  right : Face
deriving DecidableEq

/-- The six face-dictionary keys, in Python dict insertion order. -/
def faceNames : List String := ["main", "other_main", "top", "bottom", "left", "right"]

/-- Dictionary lookup `piece["faces"][face_name]`.  Unknown keys (a Python
`KeyError`, unreachable in the pipeline) yield an inert empty face. -/
def Piece.face (p : Piece) (fn : String) : Face :=
  if fn = "main" then p.main
  else if fn = "other_main" then p.other_main
  else if fn = "top" then p.top
  else if fn = "bottom" then p.bottom
  else if fn = "left" then p.left
  else if fn = "right" then p.right
  else ⟨[], [], 0, 0⟩

/-- In-place replacement of `piece["faces"][face_name]["holes"]`. -/
def Piece.setFaceHoles (p : Piece) (fn : String) (hs : List Hole) : Piece :=
  if fn = "main" then { p with main := { p.main with holes := hs } }
  else if fn = "other_main" then { p with other_main := { p.other_main with holes := hs } }
  else if fn = "top" then { p with top := { p.top with holes := hs } }
  else if fn = "bottom" then { p with bottom := { p.bottom with holes := hs } }
  else if fn = "left" then { p with left := { p.left with holes := hs } }
  else if fn = "right" then { p with right := { p.right with holes := hs } }
  else p

/-- In-place replacement of `piece["faces"][face_name]["connectionAreas"]`. -/
def Piece.setFaceAreas (p : Piece) (fn : String) (as : List ConnArea) : Piece :=
  if fn = "main" then { p with main := { p.main with connAreas := as } }
  else if fn = "other_main" then { p with other_main := { p.other_main with connAreas := as } }
  else if fn = "top" then { p with top := { p.top with connAreas := as } }
  else if fn = "bottom" then { p with bottom := { p.bottom with connAreas := as } }
  else if fn = "left" then { p with left := { p.left with connAreas := as } }
  else if fn = "right" then { p with right := { p.right with connAreas := as } }
  else p

/-- Apply one transformation to all six faces of a piece. -/
def Piece.mapFaces (p : Piece) (g : Face → Face) : Piece :=
  { p with main := g p.main, other_main := g p.other_main, top := g p.top,
           bottom := g p.bottom, left := g p.left, right := g p.right }

/-- Number of holes on a list carrying a given connection id. -/
def countId (c : ℕ) (hs : List Hole) : ℕ :=
  (hs.filter (fun h => h.connectionId == some c)).length

/-- The four classified dimensions returned by `determine_dimensions`. -/
structure Dims where
  height : ℚ
  length : ℚ
  thickness : ℚ
  half_thickness : ℚ
deriving DecidableEq

namespace GenJson

/-- `arredondar` from src/generate_furniture_json.py: round to one decimal,
then snap to the integer when within 0.1. -/
def arredondar (valor : ℚ) : ℚ :=
  if |round1 valor - (hre (round1 valor) : ℚ)| < 1/10 then (hre (round1 valor) : ℚ)
  else round1 valor

/-- `mm` from src/generate_furniture_json.py: scale design units by ten. -/
def mm (valor : ℚ) : ℚ := arredondar (valor * 10)

/-- `determine_dimensions` from src/generate_furniture_json.py.  Callers pass
exactly three extents; out-of-range indices (a Python `IndexError`) default. -/
def determine_dimensions (dims : List ℚ) : Dims :=
  let dim_sorted := pySortedDesc dims
  { height := dim_sorted.getD 0 0,
    length := dim_sorted.getD 1 0,
    thickness := dim_sorted.getD 2 0,
    half_thickness := arredondar (dim_sorted.getD 2 0 / 2) }

/-- `criar_hole` from src/generate_furniture_json.py. -/
def criar_hole (x y : ℚ) (tipo : String) (target_type : ℚ) (ferragem : String)
    (connection_id : Option ℕ) (depth diameter : Option ℚ) : Hole :=
  { x := arredondar x, y := arredondar y, type := tipo,
    targetType := truncInt target_type, ferragemSymbols := [ferragem],
    connectionId := connection_id, depth := depth, diameter := diameter }

/-- Inner `add_hole_if_not_exists` of `adicionar_holes_sistematicos`
(src/generate_furniture_json.py): skip when an existing hole lies within 2mm
on both axes, otherwise append. -/
def add_hole_if_not_exists (τ : ℚ) (face_holes : List Hole) (x y : ℚ)
    (hole_type hardware : String) (depth diameter : Option ℚ) : List Hole :=
  if face_holes.any (fun eh => decide (|eh.x - x| < 2) && decide (|eh.y - y| < 2)) then
    face_holes
  else
    face_holes ++ [criar_hole x y hole_type τ hardware none depth diameter]

/-- Body of the main/other_main loop of `adicionar_holes_sistematicos`
(src/generate_furniture_json.py): four corner holes, then central holes gated
on the face dimensions `l > 200` and `h > 200`. -/
def sist_main_face (τ l h ft : ℚ) (holes0 : List Hole) : List Hole :=
  let corner_positions : List (ℚ × ℚ) := [(ft, ft), (l - ft, ft), (ft, h - ft), (l - ft, h - ft)]
  let holes1 := corner_positions.foldl
    (fun hs xy => add_hole_if_not_exists τ hs xy.1 xy.2 "flap_corner" "dowel_M_with_glue" (some 10) (some 8)) holes0
  let holes2 :=
    if l > 200 then
      ([(l / 2, ft), (l / 2, h - ft)] : List (ℚ × ℚ)).foldl
        (fun hs xy => add_hole_if_not_exists τ hs xy.1 xy.2 "flap_central" "dowel_M_with_glue" (some 10) (some 8)) holes1
    else holes1
  if h > 200 then
    ([(ft, h / 2), (l - ft, h / 2)] : List (ℚ × ℚ)).foldl
      (fun hs xy => add_hole_if_not_exists τ hs xy.1 xy.2 "flap_central" "dowel_M_with_glue" (some 10) (some 8)) holes2
  else holes2

/-- Body of the top/bottom loop of `adicionar_holes_sistematicos`
(src/generate_furniture_json.py). -/
def sist_tb_face (τ l t ft : ℚ) (holes0 : List Hole) : List Hole :=
  let corner_positions : List (ℚ × ℚ) := [(ft, ft), (l - ft, ft), (ft, t - ft), (l - ft, t - ft)]
  let holes1 := corner_positions.foldl
    (fun hs xy => add_hole_if_not_exists τ hs xy.1 xy.2 "top_corner" "glue" (some 20) none) holes0
  if l > 200 then
    ([(l / 2, ft), (l / 2, t - ft)] : List (ℚ × ℚ)).foldl
      (fun hs xy => add_hole_if_not_exists τ hs xy.1 xy.2 "top_central" "glue" (some 20) none) holes1
  else holes1

/-- Body of the left/right loop of `adicionar_holes_sistematicos`
(src/generate_furniture_json.py). -/
def sist_lr_face (τ t h ft : ℚ) (holes0 : List Hole) : List Hole :=
  let corner_positions : List (ℚ × ℚ) := [(ft, ft), (t - ft, ft), (ft, h - ft), (t - ft, h - ft)]
  let holes1 := corner_positions.foldl
    (fun hs xy => add_hole_if_not_exists τ hs xy.1 xy.2 "top_corner" "glue" (some 20) none) holes0
  if h > 200 then
    ([(ft, h / 2), (t - ft, h / 2)] : List (ℚ × ℚ)).foldl
      (fun hs xy => add_hole_if_not_exists τ hs xy.1 xy.2 "top_central" "glue" (some 20) none) holes1
  else holes1

/-- `adicionar_holes_sistematicos` from src/generate_furniture_json.py. -/
def adicionar_holes_sistematicos (peca : Piece) (τ : ℚ) : Piece :=
  let h := peca.height
  let l := peca.length
  let t := peca.thickness
  let ft := peca.half_thickness
  { peca with
    main := { peca.main with holes := sist_main_face τ l h ft peca.main.holes },
    other_main := { peca.other_main with holes := sist_main_face τ l h ft peca.other_main.holes },
    top := { peca.top with holes := sist_tb_face τ l t ft peca.top.holes },
    bottom := { peca.bottom with holes := sist_tb_face τ l t ft peca.bottom.holes },
    left := { peca.left with holes := sist_lr_face τ t h ft peca.left.holes },
    right := { peca.right with holes := sist_lr_face τ t h ft peca.right.holes } }

/-- `classify_hole_type` from src/generate_furniture_json.py. -/
def classify_hole_type (x y : ℚ) (piece : Piece) (face_name : String) : String :=
  let ft := piece.half_thickness
  if face_name = "main" ∨ face_name = "other_main" then
    let length := piece.length
    let height := piece.height
    let is_left_edge := decide (|x - ft| < 2)
    let is_right_edge := decide (|x - (length - ft)| < 2)
    let is_bottom_edge := decide (|y - ft| < 2)
    let is_top_edge := decide (|y - (height - ft)| < 2)
    if (is_left_edge || is_right_edge) && (is_bottom_edge || is_top_edge) then "flap_corner"
    else if is_left_edge || is_right_edge || is_bottom_edge || is_top_edge then "flap_central"
    else "face_central"
  else if face_name = "top" ∨ face_name = "bottom" ∨ face_name = "left" ∨ face_name = "right" then
    let width := if face_name = "top" ∨ face_name = "bottom" then piece.length else piece.thickness
    let height := if face_name = "top" ∨ face_name = "bottom" then piece.thickness else piece.height
    let is_left_edge := decide (|x - ft| < 2)
    let is_right_edge := decide (|x - (width - ft)| < 2)
    let is_bottom_edge := decide (|y - ft| < 2)
    let is_top_edge := decide (|y - (height - ft)| < 2)
    if (is_left_edge || is_right_edge) && (is_bottom_edge || is_top_edge) then "top_corner"
    else if is_left_edge || is_right_edge || is_bottom_edge || is_top_edge then "top_central"
    else "face_central"
  else "face_central"

/-- Inner `connection_hole_exists` of `map_face_holes_proximity`
(src/generate_furniture_json.py). -/
def connection_hole_exists (face_holes : List Hole) (conn_id : ℕ) : Bool :=
  face_holes.any (fun hole => hole.connectionId == some conn_id)

/-- `map_face_holes_proximity` from src/generate_furniture_json.py.  The
Python mutates `p1["faces"][face1]["holes"]` and `p2["faces"][face2]["holes"]`
in place; here the two updated pieces are returned. -/
def map_face_holes_proximity (p1 p2 : Piece) (face1 face2 : String)
    (conn_id : ℕ) (τ : ℚ) : Piece × Piece :=
  let conn_areas_1 := (p1.face face1).connAreas.filter (fun a => a.connectionId == some conn_id)
  let conn_areas_2 := (p2.face face2).connAreas.filter (fun a => a.connectionId == some conn_id)
  if conn_areas_1 = [] ∨ conn_areas_2 = [] then (p1, p2)
  else
    let area1 := conn_areas_1.headD ⟨0, 0, 0, 0, "", 0, none⟩
    let area2 := conn_areas_2.headD ⟨0, 0, 0, 0, "", 0, none⟩
    let area1_center_x := (area1.x_min + area1.x_max) / 2
    let area1_center_y := (area1.y_min + area1.y_max) / 2
    let area2_center_x := (area2.x_min + area2.x_max) / 2
    let area2_center_y := (area2.y_min + area2.y_max) / 2
    let hole_type_1 := classify_hole_type area1_center_x area1_center_y p1 face1
    let hole_type_2 := classify_hole_type area2_center_x area2_center_y p2 face2
    let hw1 : String × Option ℚ × Option ℚ :=
      if hole_type_1.startsWith "flap" then ("dowel_M_with_glue", some 10, some 8)
      else ("glue", some 20, none)
    let hw2 : String × Option ℚ × Option ℚ :=
      if hole_type_2.startsWith "flap" then ("dowel_M_with_glue", some 10, some 8)
      else ("glue", some 20, none)
    let face1_holes := (p1.face face1).holes
    let face2_holes := (p2.face face2).holes
    let face1_holes' :=
      if connection_hole_exists face1_holes conn_id then face1_holes
      else face1_holes ++ [criar_hole area1_center_x area1_center_y hole_type_1 τ hw1.1
        (some conn_id) hw1.2.1 hw1.2.2]
    let face2_holes' :=
      if connection_hole_exists face2_holes conn_id then face2_holes
      else face2_holes ++ [criar_hole area2_center_x area2_center_y hole_type_2 τ hw2.1
        (some conn_id) hw2.2.1 hw2.2.2]
    (p1.setFaceHoles face1 face1_holes', p2.setFaceHoles face2 face2_holes')

/-- `clean_unconnected_holes` from src/generate_furniture_json.py: keep only
holes carrying a connection id or whose type starts with `singer_`. -/
def clean_unconnected_holes (pieces : List Piece) : List Piece :=
  pieces.map (fun piece => piece.mapFaces (fun face =>
    { face with
      holes := face.holes.filter
                 (fun hole => !(hole.connectionId == none) || hole.type.startsWith "singer_") }))

end GenJson

namespace GenJson

/-- Axis-aligned 3D bounds of one face (`face_bounds` entries of
`map_piece_points`, src/generate_furniture_json.py). -/
structure Bounds3 where
  minX : ℚ
  minY : ℚ
  minZ : ℚ
  maxX : ℚ
  maxY : ℚ
  maxZ : ℚ
deriving DecidableEq

/-- A 2D rectangle used for face projections. -/
structure Rect2 where
  x_min : ℚ
  x_max : ℚ
  y_min : ℚ
  y_max : ℚ
deriving DecidableEq

/-- A global-space overlap rectangle with its area (`calculate_face_overlap`
result, src/generate_furniture_json.py). -/
structure OverlapRect where
  x_min : ℚ
  x_max : ℚ
  y_min : ℚ
  y_max : ℚ
  area : ℚ
deriving DecidableEq

/-- The `face_bounds` dictionary of `map_piece_points`
(src/generate_furniture_json.py), looked up by face name. -/
def face_bounds (p : Piece) (fn : String) : Bounds3 :=
  let x := p.posX
  let y := p.posY
  let z := p.posZ
  let l := p.length
  let h := p.height
  let t := p.thickness
  if fn = "main" then ⟨x, y, z, x + l, y, z + t⟩
  else if fn = "other_main" then ⟨x, y + h, z, x + l, y + h, z + t⟩
  else if fn = "top" then ⟨x, y, z + t, x + l, y + h, z + t⟩
  else if fn = "bottom" then ⟨x, y, z, x + l, y + h, z⟩
  else if fn = "left" then ⟨x, y, z, x, y + h, z + t⟩
  else if fn = "right" then ⟨x + l, y, z, x + l, y + h, z + t⟩
  else ⟨0, 0, 0, 0, 0, 0⟩

/-- The `face_orientations` lookup of `calculate_face_to_face_distance`
(src/generate_furniture_json.py); `.get` yields `None` on unknown keys. -/
def face_orientations (fn : String) : Option String :=
  if fn = "main" ∨ fn = "other_main" then some "y"
  else if fn = "top" ∨ fn = "bottom" then some "z"
  else if fn = "left" ∨ fn = "right" then some "x"
  else none

/-- `calculate_face_to_face_distance` from src/generate_furniture_json.py. -/
def calculate_face_to_face_distance (bounds1 bounds2 : Bounds3)
    (face1_name face2_name : String) : Option ℚ :=
  let orient1 := face_orientations face1_name
  let orient2 := face_orientations face2_name
  if orient1 ≠ orient2 ∨ orient1 = none then none
  else if orient1 = some "x" then
    if face1_name = "right" ∧ face2_name = "left" then some |bounds1.maxX - bounds2.minX|
    else if face1_name = "left" ∧ face2_name = "right" then some |bounds2.maxX - bounds1.minX|
    else none
  else if orient1 = some "y" then
    if face1_name = "other_main" ∧ face2_name = "main" then some |bounds1.minY - bounds2.maxY|
    else if face1_name = "main" ∧ face2_name = "other_main" then some |bounds2.minY - bounds1.maxY|
    else none
  else if orient1 = some "z" then
    if face1_name = "top" ∧ face2_name = "bottom" then some |bounds1.minZ - bounds2.maxZ|
    else if face1_name = "bottom" ∧ face2_name = "top" then some |bounds2.minZ - bounds1.maxZ|
    else none
  else none

/-- Inner `get_2d_bounds` of `calculate_face_overlap`
(src/generate_furniture_json.py).  Unknown face names fall off the end of the
Python `if` chain (an implicit `None`). -/
def get_2d_bounds (bounds : Bounds3) (face_name : String) : Option Rect2 :=
  if face_name = "main" ∨ face_name = "other_main" then
    some ⟨bounds.minX, bounds.maxX, bounds.minZ, bounds.maxZ⟩
  else if face_name = "top" ∨ face_name = "bottom" then
    some ⟨bounds.minX, bounds.maxX, bounds.minY, bounds.maxY⟩
  else if face_name = "left" ∨ face_name = "right" then
    some ⟨bounds.minY, bounds.maxY, bounds.minZ, bounds.maxZ⟩
  else none

/-- `calculate_face_overlap` from src/generate_furniture_json.py. -/
def calculate_face_overlap (bounds1 bounds2 : Bounds3)
    (face1_name face2_name : String) : Option OverlapRect :=
  match get_2d_bounds bounds1 face1_name, get_2d_bounds bounds2 face2_name with
  | some b1, some b2 =>
    let x_overlap := max 0 (min b1.x_max b2.x_max - max b1.x_min b2.x_min)
    let y_overlap := max 0 (min b1.y_max b2.y_max - max b1.y_min b2.y_min)
    if x_overlap > 0 ∧ y_overlap > 0 then
      some ⟨max b1.x_min b2.x_min, min b1.x_max b2.x_max,
            max b1.y_min b2.y_min, min b1.y_max b2.y_max, x_overlap * y_overlap⟩
    else none
  | _, _ => none

/-- One accepted `face_to_face` proximity entry of `find_proximity_points`
(src/generate_furniture_json.py). -/
structure FaceProx where
  piece1_face : String
  piece2_face : String
  distance : ℚ
  overlap_area : OverlapRect
deriving DecidableEq

/-- The `face_to_face` entries of `find_proximity_points`
(src/generate_furniture_json.py) with `tolerance = 5.0`, iterating the
`face_bounds` dictionaries in insertion order.  The vertex and face-center
proximity entries the Python also collects are dropped unused by
`detect_connections_by_proximity` (it filters on `type == 'face_to_face'`),
so only the face-to-face loop is embedded. -/
def find_face_proximities (piece1 piece2 : Piece) : List FaceProx :=
  faceNames.flatMap (fun face1_name =>
    faceNames.filterMap (fun face2_name =>
      match calculate_face_to_face_distance (face_bounds piece1 face1_name)
        (face_bounds piece2 face2_name) face1_name face2_name with
      | none => none
      | some face_distance =>
        if face_distance ≤ 5 then
          match calculate_face_overlap (face_bounds piece1 face1_name)
            (face_bounds piece2 face2_name) face1_name face2_name with
          | some overlap_area =>
            if overlap_area.area > 10 then
              some ⟨face1_name, face2_name, face_distance, overlap_area⟩
            else none
          | none => none
        else none))

/-- A connection record as appended by `detect_connections_by_proximity`
(src/generate_furniture_json.py); the redundant `proximity` entry is carried
by the `overlap_area`/faces fields. -/
structure Connection where
  id : ℕ
  piece1 : ℕ
  piece2 : ℕ
  face1 : String
  face2 : String
  overlap_area : OverlapRect
deriving DecidableEq

/-- Order-independent dedup key: `tuple(sorted([(i, face1), (j, face2)]))`,
with Python's lexicographic comparison of `(int, str)` tuples. -/
abbrev ConnKey := (ℕ × String) × (ℕ × String)

/-- Python tuple comparison `(i, s) < (j, t)` restricted to what `sorted` on a
two-element list needs. -/
def pairLt (a b : ℕ × String) : Bool :=
  decide (a.1 < b.1) || (decide (a.1 = b.1) && decide (a.2 < b.2))

/-- `tuple(sorted([a, b]))` for the two (index, face) pairs. -/
def mkKey (a b : ℕ × String) : ConnKey := if pairLt b a then (b, a) else (a, b)

/-- The dedup key of a connection record. -/
def connKey (c : Connection) : ConnKey := mkKey (c.piece1, c.face1) (c.piece2, c.face2)

/-- Loop state of `detect_connections_by_proximity`: the `connections` list,
the `conn_id` counter and the `seen_connections` set (kept as the list of keys
in insertion order). -/
structure DetSt where
  conns : List Connection
  nextId : ℕ
  seen : List ConnKey

/-- Body of the `for proximity in face_to_face_proximities` loop of
`detect_connections_by_proximity` (src/generate_furniture_json.py). -/
def detect_step (i j : ℕ) (st : DetSt) (fp : FaceProx) : DetSt :=
  let connection_key := mkKey (i, fp.piece1_face) (j, fp.piece2_face)
  if connection_key ∈ st.seen then st
  else
    { conns := st.conns ++ [⟨st.nextId, i, j, fp.piece1_face, fp.piece2_face, fp.overlap_area⟩],
      nextId := st.nextId + 1,
      seen := st.seen ++ [connection_key] }

/-- The double loop of `detect_connections_by_proximity`
(src/generate_furniture_json.py): enumerate unordered piece pairs (`i < j`)
in input order and fold every accepted face-to-face proximity through
`detect_step`, starting from empty connections and `conn_id = 1`. -/
def detect_state (pieces : List Piece) : DetSt :=
  pieces.enum.foldl (fun st ip =>
    pieces.enum.foldl (fun st jp =>
      if ip.1 < jp.1 then
        (find_face_proximities ip.2 jp.2).foldl (detect_step ip.1 jp.1) st
      else st) st) ⟨[], 1, []⟩

/-- `detect_connections_by_proximity` from src/generate_furniture_json.py:
the connection list built by the loop above. -/
def detect_connections_by_proximity (pieces : List Piece) : List Connection :=
  (detect_state pieces).conns

/-- `select_model_template` from src/generate_furniture_json.py (identical in
src/app.py): the multiset of `targetType` values of `top_corner`/`top_central`
holes on the four thickness faces, then majority vote with min tie-break. -/
def model_template_votes (pieces : List Piece) : List ℤ :=
  pieces.flatMap (fun piece =>
    (["top", "bottom", "left", "right"] : List String).flatMap (fun face_name =>
      ((piece.face face_name).holes.filter
          (fun hole => hole.type = "top_corner" ∨ hole.type = "top_central")).map
        (fun hole => hole.targetType)))

end GenJson

namespace App

/-- `arredondar` from src/app.py: round to one decimal, then snap to the
whole number when within 0.15. -/
def arredondar (valor : ℚ) : ℚ :=
  if |round1 valor - (hre (round1 valor) : ℚ)| ≤ 3/20 then (hre (round1 valor) : ℚ)
  else round1 valor

/-- `mm` from src/app.py. -/
def mm (valor : ℚ) : ℚ := arredondar (valor * 10)

/-- `determine_dimensions` from src/app.py (same shape as the
src/generate_furniture_json.py version, with src/app.py's `arredondar`). -/
def determine_dimensions (dims : List ℚ) : Dims :=
  let dim_sorted := pySortedDesc dims
  { height := dim_sorted.getD 0 0,
    length := dim_sorted.getD 1 0,
    thickness := dim_sorted.getD 2 0,
    half_thickness := arredondar (dim_sorted.getD 2 0 / 2) }

/-- One 2D projection: `{position: {x, y}, dimensions: {largura, altura}}`. -/
structure Proj where
  posX : ℚ
  posY : ℚ
  largura : ℚ
  altura : ℚ
deriving DecidableEq

/-- The normalized views of one piece: `views.get("top" | "lateral" |
"frontal")`, `none` when the projection is missing. -/
structure Views where
  top : Option Proj
  lateral : Option Proj
  frontal : Option Proj
deriving DecidableEq

/-- `criar_hole` from src/app.py. -/
def criar_hole (x y : ℚ) (tipo : String) (target_type : ℚ) (ferragem : String)
    (connection_id : Option ℕ) (depth diameter : Option ℚ) : Hole :=
  { x := arredondar x, y := arredondar y, type := tipo,
    targetType := truncInt target_type, ferragemSymbols := [ferragem],
    connectionId := connection_id, depth := depth, diameter := diameter }

/-- `construir_peca_3d` from src/app.py: `None` (no piece) when any of the
three required projections is missing, otherwise the piece record with six
empty faces. -/
def construir_peca_3d (nome : String) (views : Views) : Option Piece :=
  match views.top, views.lateral, views.frontal with
  | some sup, some lat, some fra =>
    let x := mm sup.posX
    let y := mm sup.posY
    let z := mm fra.posY
    let length := mm sup.largura
    let height := mm fra.altura
    let thickness := mm lat.largura
    let dims := determine_dimensions [length, height, thickness]
    some { name := nome, posX := x, posY := y, posZ := z,
           length := dims.length, height := dims.height,
           thickness := dims.thickness, half_thickness := dims.half_thickness,
           main := ⟨[], [], dims.length, dims.height⟩,
           other_main := ⟨[], [], dims.length, dims.height⟩,
           top := ⟨[], [], dims.length, dims.thickness⟩,
           bottom := ⟨[], [], dims.length, dims.thickness⟩,
           left := ⟨[], [], dims.thickness, dims.height⟩,
           right := ⟨[], [], dims.thickness, dims.height⟩ }
  | _, _, _ => none

/-- The piece-building loop of `processar_json_entrada` (src/app.py):
`construir_peca_3d` over every named view set, keeping only built pieces. -/
def buildPieces (views_list : List (String × Views)) : List Piece :=
  views_list.filterMap (fun nv => construir_peca_3d nv.1 nv.2)

/-- `LEG_PATTERNS` from src/app.py. -/
def LEG_PATTERNS : List String := ["perna", "leg", "pata", "pierna", "support", "suporte"]

/-- `is_leg_piece` from src/app.py: name pattern match, else the dimensional
heuristic. -/
def is_leg_piece (piece : Piece) : Bool :=
  let name_lower := piece.name.toLower
  LEG_PATTERNS.any (fun pattern => strContains name_lower pattern) ||
    (decide (|piece.length - piece.height| < 50) &&
     decide (max piece.length piece.height < 250))

/-- Inner `add_hole_if_not_exists` of `adicionar_holes_sistematicos`
(src/app.py): skip (a pure no-op) when an existing hole lies within 8mm on
both axes, otherwise append. -/
def add_hole_if_not_exists (τ : ℚ) (face_holes : List Hole) (x y : ℚ)
    (hole_type hardware : String) (depth diameter : Option ℚ)
    (connection_id : Option ℕ) : List Hole :=
  if face_holes.any (fun eh => decide (|eh.x - x| < 8) && decide (|eh.y - y| < 8)) then
    face_holes
  else
    face_holes ++ [criar_hole x y hole_type τ hardware connection_id depth diameter]

/-- Inner `add_intermediate_holes_if_needed` of `adicionar_holes_sistematicos`
(src/app.py): one midpoint hole when the two holes are more than 200mm apart.
The Python compares `sqrt(dx² + dy²) > 200`; both sides squared here. -/
def add_intermediate_holes_if_needed (τ : ℚ) (face_holes : List Hole)
    (hole1_pos hole2_pos : ℚ × ℚ) (hole_type hardware : String)
    (depth diameter : Option ℚ) : List Hole :=
  if (hole2_pos.1 - hole1_pos.1) ^ 2 + (hole2_pos.2 - hole1_pos.2) ^ 2 > 200 ^ 2 then
    add_hole_if_not_exists τ face_holes ((hole1_pos.1 + hole2_pos.1) / 2)
      ((hole1_pos.2 + hole2_pos.2) / 2) hole_type hardware depth diameter none
  else face_holes

/-- `classify_hole_type` from src/app.py. -/
def classify_hole_type (x y : ℚ) (piece : Piece) (face_name : String) : String :=
  let ft := piece.half_thickness
  if face_name = "main" ∨ face_name = "other_main" then
    let length := piece.length
    let height := piece.height
    let is_left_edge := decide (|x - ft| < 2)
    let is_right_edge := decide (|x - (length - ft)| < 2)
    let is_bottom_edge := decide (|y - ft| < 2)
    let is_top_edge := decide (|y - (height - ft)| < 2)
    if (is_left_edge || is_right_edge) && (is_bottom_edge || is_top_edge) then "flap_corner"
    else if is_left_edge || is_right_edge || is_bottom_edge || is_top_edge then "flap_central"
    else "face_central"
  else if face_name = "top" ∨ face_name = "bottom" ∨ face_name = "left" ∨ face_name = "right" then
    let width := if face_name = "top" ∨ face_name = "bottom" then piece.length else piece.thickness
    let height := if face_name = "top" ∨ face_name = "bottom" then piece.thickness else piece.height
    let is_left_edge := decide (|x - ft| < 2)
    let is_right_edge := decide (|x - (width - ft)| < 2)
    let is_bottom_edge := decide (|y - ft| < 2)
    let is_top_edge := decide (|y - (height - ft)| < 2)
    if (is_left_edge || is_right_edge) && (is_bottom_edge || is_top_edge) then "top_corner"
    else if is_left_edge || is_right_edge || is_bottom_edge || is_top_edge then "top_central"
    else "face_central"
  else "face_central"

/-- `create_simple_connection_area_for_piece` from src/app.py (Step 12).
Every appended area hardcodes `connectionId: 1`; the `conn_id` argument is
never written into an area. -/
def create_simple_connection_area_for_piece (piece : Piece) (face_name : String)
    (conn_id : ℕ) : Piece :=
  let _ := conn_id
  if face_name = "top" then
    let max_x := piece.length
    if is_leg_piece piece then
      let area : ConnArea :=
        ⟨0, 0, (truncInt max_x : ℚ), (truncInt piece.thickness : ℚ), "black", 1/20, some 1⟩
      piece.setFaceAreas face_name ((piece.face face_name).connAreas ++ [area])
    else
      let stripe_width := piece.thickness
      let stripe_length := piece.height * (67/100)
      let margin_offset := piece.thickness
      let left_stripe : ConnArea :=
        ⟨(truncInt margin_offset : ℚ), 0, (truncInt (margin_offset + stripe_width) : ℚ),
         (truncInt stripe_length : ℚ), "black", 1/20, some 1⟩
      let right_stripe : ConnArea :=
        ⟨(truncInt (max_x - stripe_width) : ℚ), 0, (truncInt max_x : ℚ),
         (truncInt stripe_length : ℚ), "black", 1/20, some 1⟩
      piece.setFaceAreas face_name
        ((piece.face face_name).connAreas ++ [left_stripe, right_stripe])
  else if face_name = "main" ∨ face_name = "other_main" then
    let connection_area_width : ℚ := 20
    let connection_area_height : ℚ := 200
    let panel_width := piece.length
    let left_x_start := (truncInt (panel_width * (1/10)) : ℚ)
    let right_x_start := (truncInt (panel_width * (9/10)) : ℚ)
    let left_area : ConnArea :=
      ⟨left_x_start, 0, left_x_start + connection_area_width, connection_area_height,
       "black", 1/20, some 1⟩
    let right_area : ConnArea :=
      ⟨right_x_start, 0, right_x_start + connection_area_width, connection_area_height,
       "black", 1/20, some 1⟩
    piece.setFaceAreas face_name
      ((piece.face face_name).connAreas ++ [left_area, right_area])
  else if face_name = "left" ∨ face_name = "right" then
    let max_x := piece.thickness
    let max_y := piece.height
    let stripe_height := piece.thickness
    let top_stripe : ConnArea :=
      ⟨0, max_y - stripe_height, max_x, max_y, "black", 1/20, some 1⟩
    let bottom_stripe : ConnArea :=
      ⟨0, 0, (truncInt max_x : ℚ), stripe_height, "black", 1/20, some 1⟩
    piece.setFaceAreas face_name
      ((piece.face face_name).connAreas ++ [top_stripe, bottom_stripe])
  else piece

/-- `map_leg_holes_to_top_panel` from src/app.py (Step 10).  Every hole on the
leg's connecting face is stamped with `conn_id`; each is then mapped into a
left/right connection area of the panel face, where the mapped hole receives
the area-based id 1 or 2 (`area_connection_id`), `y = 10` or `190` by
`conn_id`, subject to a 5mm per-axis duplicate check.  `leg_rel_y` is computed
in the Python but never used.  Returns the updated (leg, panel) pieces. -/
def map_leg_holes_to_top_panel (leg_piece top_piece : Piece)
    (leg_face top_face : String) (conn_id : ℕ) (τ : ℚ) : Piece × Piece :=
  let leg_holes := ((leg_piece.face leg_face).holes).map
    (fun h => { h with connectionId := some conn_id })
  let leg_piece' := leg_piece.setFaceHoles leg_face leg_holes
  let connection_areas := (top_piece.face top_face).connAreas
  if connection_areas = [] then (leg_piece', top_piece)
  else
    let newTop := leg_holes.foldl (fun acc leg_hole =>
      let leg_rel_x := leg_hole.x / leg_piece.length
      let target_area := connection_areas.find? (fun area =>
        let area_center_x := (area.x_min + area.x_max) / 2
        (decide (leg_rel_x < 1/2) && decide (area_center_x < 100)) ||
          (decide (¬ leg_rel_x < 1/2) && decide (100 ≤ area_center_x)))
      match target_area with
      | none => acc
      | some area =>
        let hole_x := area.x_min + (area.x_max - area.x_min) / 2
        let hole_y : ℚ := if conn_id = 1 then 10 else 190
        let area_connection_id : ℕ := if hole_x < 100 then 1 else 2
        let hole_type := classify_hole_type hole_x hole_y top_piece top_face
        let hardware := leg_hole.ferragemSymbols.headD "glue"
        let depth := leg_hole.depth.getD 20
        let diameter := leg_hole.diameter
        if acc.any (fun eh => decide (|eh.x - hole_x| < 5) && decide (|eh.y - hole_y| < 5)) then
          acc
        else
          acc ++ [criar_hole hole_x hole_y hole_type τ hardware
            (some area_connection_id) (some depth) diameter])
      ((top_piece.face top_face).holes)
    (leg_piece', top_piece.setFaceHoles top_face newTop)

/-- Membership test of a hole's (x, y) in a connection-area rectangle,
as written inline in `clean_holes_outside_connection_areas` (src/app.py). -/
def hole_in_area (area : ConnArea) (hole : Hole) : Bool :=
  decide (area.x_min ≤ hole.x) && decide (hole.x ≤ area.x_max) &&
    decide (area.y_min ≤ hole.y) && decide (hole.y ≤ area.y_max)

/-- Per-face body of `clean_holes_outside_connection_areas` (src/app.py,
Step 13): keep a hole only when it lies inside some connection area of its
face.  The Python also computes an `is_systematic_hole` flag, but never reads
it: protected types and connection ids play no role in the kept set. -/
def clean_face_holes (connection_areas : List ConnArea) (holes : List Hole) : List Hole :=
  holes.filter (fun hole => connection_areas.any (fun area => hole_in_area area hole))

/-- `clean_holes_outside_connection_areas` from src/app.py (Step 13). -/
def clean_holes_outside_connection_areas (pieces : List Piece) : List Piece :=
  pieces.map (fun piece => piece.mapFaces (fun face =>
    { face with holes := clean_face_holes face.connAreas face.holes }))

/-- `determine_singer_hole_type` from src/app.py (Step 7). -/
def determine_singer_hole_type (piece : Piece) (x y : ℚ) (face_name : String) : String :=
  let ft := piece.half_thickness
  if face_name = "main" ∨ face_name = "other_main" then
    let l := piece.length
    let h := piece.height
    let near_top := decide (y > h - 50)
    let near_bottom := decide (y < 50)
    let in_middle_y := !(near_top || near_bottom)
    let dist_from_left := |x - ft|
    let dist_from_right := |x - (l - ft)|
    if dist_from_left ≤ 5 ∨ dist_from_right ≤ 5 then "singer_flap"
    else if in_middle_y then "singer_central"
    else "singer_flap"
  else if face_name = "top" ∨ face_name = "bottom" ∨ face_name = "left" ∨ face_name = "right" then
    "singer_channel"
  else "singer_flap"

/-- `hole_exists_near_position` from src/app.py.  The Python compares
`sqrt(dx² + dy²) < min_distance`; both sides squared here. -/
def hole_exists_near_position (face_holes : List Hole) (x y min_distance : ℚ) : Bool :=
  face_holes.any (fun eh => decide ((eh.x - x) ^ 2 + (eh.y - y) ^ 2 < min_distance ^ 2))

/-- `add_singer_holes_in_area` from src/app.py (Step 7): each source-face hole
inside the mirrored area is reflected across the face's horizontal center axis
(`mirror_x = x`, `mirror_y = 2*center_y - y`, `center_y = height/2`),
reclassified as a singer type, and appended to the target face unless it
collides (8mm) with a hole already there. -/
def add_singer_holes_in_area (piece : Piece) (source_face_name target_face_name : String)
    (area : ConnArea) (τ : ℚ) : Piece :=
  let source_face := piece.face source_face_name
  let piece_height := piece.height
  let center_y := piece_height / 2
  let source_holes_in_area := source_face.holes.filter (fun hole =>
    decide (area.x_min ≤ hole.x) && decide (hole.x ≤ area.x_max) &&
      decide (area.y_min ≤ hole.y) && decide (hole.y ≤ area.y_max))
  let newTarget := source_holes_in_area.foldl (fun acc source_hole =>
    let mirror_x := source_hole.x
    let mirror_y := 2 * center_y - source_hole.y
    let singer_type := determine_singer_hole_type piece mirror_x mirror_y target_face_name
    if hole_exists_near_position acc mirror_x mirror_y 8 then acc
    else acc ++ [criar_hole mirror_x mirror_y singer_type τ "singer_dowel" none (some 30) none])
    ((piece.face target_face_name).holes)
  piece.setFaceHoles target_face_name newTarget

/-- The `targetType` votes collected by `select_model_template` (src/app.py,
Step 16): one entry per `top_corner`/`top_central` hole on a thickness face. -/
def model_template_votes (pieces : List Piece) : List ℤ :=
  pieces.flatMap (fun piece =>
    (["top", "bottom", "left", "right"] : List String).flatMap (fun face_name =>
      ((piece.face face_name).holes.filter
          (fun hole => hole.type = "top_corner" ∨ hole.type = "top_central")).map
        (fun hole => hole.targetType)))

/-- `select_model_template` from src/app.py (Step 16): default 20 on an empty
histogram, otherwise the smallest thickness among those with the maximal hole
count. -/
def select_model_template (pieces : List Piece) : ℚ :=
  let votes := model_template_votes pieces
  if votes = [] then 20
  else
    let keys := votes.dedup
    let max_count := (keys.map (fun t => votes.count t)).foldl max 0
    let candidates := keys.filter (fun t => votes.count t == max_count)
    ((candidates.foldl min (candidates.headD 0) : ℤ) : ℚ)

end App

namespace Legs

/-- `MARGIN` from src/legs.py: 1mm symmetric connection-area margin. -/
def MARGIN : ℚ := 1

/-- `HOLE_DIAMETER` from src/legs.py. -/
def HOLE_DIAMETER : ℚ := 8

/-- `round_to_one_decimal` from src/legs.py: round to one decimal, then snap
to the whole number when within 0.1. -/
def round_to_one_decimal (value : ℚ) : ℚ :=
  if |round1 value - (hre (round1 value) : ℚ)| < 1/10 then (hre (round1 value) : ℚ)
  else round1 value

/-- `Bounds3D` dataclass from src/legs.py. -/
structure Bounds3D where
  x_min : ℚ
  x_max : ℚ
  y_min : ℚ
  y_max : ℚ
  z_min : ℚ
  z_max : ℚ
deriving DecidableEq

/-- A hole dictionary as built by `add_hole` in src/legs.py. -/
structure LHole where
  x : ℚ
  y : ℚ
  type : String
  targetType : String
  ferragemSymbols : List String
  ring : Bool
  color : String
  symbol : String
  depth : ℚ
  diameter : ℚ
  connectionId : Option ℕ := none
deriving DecidableEq

/-- A connection-area dictionary as built by `add_connection_area`
in src/legs.py. -/
structure LArea where
  x_min : ℚ
  y_min : ℚ
  x_max : ℚ
  y_max : ℚ
  fill : String
  opacity : ℚ
  connectionId : ℕ
deriving DecidableEq

/-- One face entry of the `faces` list of a src/legs.py `Piece`. -/
structure LFace where
  faceSide : String
  holes : List LHole
  connAreas : List LArea
deriving DecidableEq

/-- The `Piece` dataclass from src/legs.py. -/
structure LPiece where
  name : String
  bounds : Bounds3D
  length : ℚ
  height : ℚ
  thickness : ℚ
  quantity : ℕ
  faces : List LFace
deriving DecidableEq

/-- The face-creation guard shared by `add_hole` and `add_connection_area`
(src/legs.py): append an empty face record when the side is not present. -/
def ensureFace (faces : List LFace) (face_side : String) : List LFace :=
  if face_side ∈ faces.map (fun f => f.faceSide) then faces
  else faces ++ [⟨face_side, [], []⟩]

/-- Update of the first hole matching the rounded coordinates during the
dedup scan of `add_hole` (src/legs.py): fill in a missing `connectionId`. -/
def updateHoleOnce (rx ry : ℚ) (connection_id : Option ℕ) : List LHole → List LHole
  | [] => []
  | h :: hs =>
    if h.x == rx && h.y == ry then
      (match connection_id, h.connectionId with
       | some cid, none => { h with connectionId := some cid }
       | _, _ => h) :: hs
    else h :: updateHoleOnce rx ry connection_id hs

/-- The dedup branch of `add_hole` (src/legs.py): the Python scans the faces
with the requested side and returns after (at most) updating the first hole
whose rounded coordinates match exactly. -/
def updateFirstMatch (face_side : String) (rx ry : ℚ) (connection_id : Option ℕ) :
    List LFace → List LFace
  | [] => []
  | f :: fs =>
    if f.faceSide == face_side
        && f.holes.any (fun eh => eh.x == rx && eh.y == ry) then
      { f with holes := updateHoleOnce rx ry connection_id f.holes } :: fs
    else f :: updateFirstMatch face_side rx ry connection_id fs

/-- `add_hole` from src/legs.py: duplicate suppression is an exact match on
the rounded coordinates (updating a missing connection id on the existing
hole); otherwise the hole is appended to every face with the requested side. -/
def add_hole (piece : LPiece) (face_side : String) (x y : ℚ) (hole_type : String)
    (connection_id : Option ℕ) (depth : ℚ) : LPiece :=
  let faces0 := ensureFace piece.faces face_side
  let rounded_x := round_to_one_decimal x
  let rounded_y := round_to_one_decimal y
  if faces0.any (fun f => f.faceSide == face_side
      && f.holes.any (fun eh => eh.x == rounded_x && eh.y == rounded_y)) then
    { piece with faces := updateFirstMatch face_side rounded_x rounded_y connection_id faces0 }
  else
    let ferragem :=
      if hole_type = "flap_corner" ∨ hole_type = "flap_central" ∨ hole_type = "face_central" then
        "dowel_M_with_glue"
      else if hole_type = "singer_flap" ∨ hole_type = "singer_central" ∨ hole_type = "singer_channel" then
        "dowel_G_with_glue"
      else "glue"
    let hole : LHole :=
      { x := rounded_x, y := rounded_y, type := hole_type, targetType := "20",
        ferragemSymbols := [ferragem], ring := true, color := "blue",
        symbol := hole_type.toUpper, depth := depth, diameter := HOLE_DIAMETER,
        connectionId := connection_id }
    { piece with faces := faces0.map (fun f =>
        if f.faceSide == face_side then { f with holes := f.holes ++ [hole] } else f) }

/-- The strict rectangle-overlap test of `add_connection_area` (src/legs.py),
comparing the margin-inset candidate against a stored area. -/
def overlapsB (nxm nxM nym nyM : ℚ) (existing_ca : LArea) : Bool :=
  decide (nxm < existing_ca.x_max) && decide (nxM > existing_ca.x_min) &&
    decide (nym < existing_ca.y_max) && decide (nyM > existing_ca.y_min)

/-- The per-face body of `add_connection_area` (src/legs.py), applied to the
first face with the requested side (`next(face for ...)`): reject on overlap
with any existing area, else append the rounded area. -/
def addAreaFirstMatch (face_side : String) (xm xM ym yM : ℚ) (connection_id : ℕ) :
    List LFace → List LFace
  | [] => []
  | f :: fs =>
    if f.faceSide == face_side then
      (if f.connAreas.any (overlapsB xm xM ym yM) then f
       else { f with connAreas := f.connAreas ++
         [⟨round_to_one_decimal xm, round_to_one_decimal ym,
           round_to_one_decimal xM, round_to_one_decimal yM,
           "black", 1/20, connection_id⟩] }) :: fs
    else f :: addAreaFirstMatch face_side xm xM ym yM connection_id fs

/-- `add_connection_area` from src/legs.py: inset the rectangle by the 1mm
margin on every side, drop it when degenerate, reject it when it strictly
overlaps an existing area of the face (never merge), else append it rounded. -/
def add_connection_area (piece : LPiece) (face_side : String)
    (x_min x_max y_min y_max : ℚ) (connection_id : ℕ) : LPiece :=
  let faces0 := ensureFace piece.faces face_side
  let xm := x_min + MARGIN
  let xM := x_max - MARGIN
  let ym := y_min + MARGIN
  let yM := y_max - MARGIN
  if xM ≤ xm ∨ yM ≤ ym then { piece with faces := faces0 }
  else { piece with faces := addAreaFirstMatch face_side xm xM ym yM connection_id faces0 }

end Legs

/-- The protected systematic hole types named by the Cleanup contract. -/
def protectedTypes : List String :=
  ["flap_corner", "flap_central", "top_corner", "top_central", "face_central"]

/-- The Cleanup contract exactly as the spec states it (spec §4.8), for
comparison with `App.clean_face_holes`: delete a hole iff it carries no
connection id, its type is not protected, and it lies outside every
connection area of its face. -/
def cleanupClaimC3 (connection_areas : List ConnArea) (holes : List Hole) : List Hole :=
  holes.filter (fun hole =>
    !(decide (hole.connectionId = none) && !(protectedTypes.contains hole.type) &&
      !(connection_areas.any (fun area => App.hole_in_area area hole))))


/-- No two holes on a list lie within 5mm of each other on both axes
(the separation the spec's Scenario 3 demands). -/
@[reducible] def Sep5 (hs : List Hole) : Prop :=
  hs.Pairwise (fun a b => 5 ≤ |a.x - b.x| ∨ 5 ≤ |a.y - b.y|)

namespace Legs

/-- Strict geometric overlap of two stored connection areas, as tested by
`add_connection_area` (src/legs.py). -/
@[reducible] def overlapRect (a b : LArea) : Prop :=
  a.x_min < b.x_max ∧ a.x_max > b.x_min ∧ a.y_min < b.y_max ∧ a.y_max > b.y_min

/-- The connection-area invariant of a face: areas are pairwise
non-overlapping and carry one-decimal coordinates (as stored ones do). -/
@[reducible] def AreaInv (as : List LArea) : Prop :=
  as.Pairwise (fun a b => ¬ overlapRect a b) ∧
    ∀ a ∈ as, round1 a.x_min = a.x_min ∧ round1 a.y_min = a.y_min ∧
      round1 a.x_max = a.x_max ∧ round1 a.y_max = a.y_max

end Legs

namespace GenJson

/-- Invariant of the `detect_connections_by_proximity` loop state: the next
id is fresh, ids so far are exactly 1..n in order, and the seen-key set is
exactly the (duplicate-free) keys of the connections so far. -/
def DetInv (st : DetSt) : Prop :=
  st.nextId = st.conns.length + 1 ∧
    st.conns.map (fun c => c.id) = List.range' 1 st.conns.length ∧
    st.seen = st.conns.map connKey ∧
    st.seen.Nodup

end GenJson

/-! ## Concrete fixtures used by witnesses and counterexamples -/

/-- An empty face record. -/
def emptyFace : Face := ⟨[], [], 0, 0⟩

/-- A bare src/legs.py leg piece with one empty `top` face. -/
def legPieceC4 : Legs.LPiece := ⟨"perna", ⟨0, 0, 0, 0, 0, 0⟩, 100, 100, 20, 1, [⟨"top", [], []⟩]⟩

/-- A 200×300×20 panel whose `main` face carries the two connection areas of
a 200mm-wide panel (as `create_simple_connection_area_for_piece` lays them
out), used to feed `map_leg_holes_to_top_panel`. -/
def panC2 : Piece :=
  { name := "tampo", posX := 0, posY := 0, posZ := 0,
    length := 200, height := 300, thickness := 20, half_thickness := 10,
    main := ⟨[], [⟨20, 0, 40, 200, "black", 1/20, some 1⟩], 200, 300⟩,
    other_main := emptyFace, top := emptyFace, bottom := emptyFace,
    left := emptyFace, right := emptyFace }

/-- A 100×100×20 leg with one systematic hole on its `top` face. -/
def legC2 : Piece :=
  { name := "perna 1", posX := 0, posY := 0, posZ := 0,
    length := 100, height := 100, thickness := 20, half_thickness := 10,
    main := emptyFace, other_main := emptyFace,
    top := ⟨[App.criar_hole 10 10 "top_corner" 20 "glue" none (some 20) none], [], 100, 20⟩,
    bottom := emptyFace, left := emptyFace, right := emptyFace }

/-- A leg whose `top` face holds a connection area with id 1, for the C2
witness. -/
def legC2W : Piece :=
  { name := "perna 1", posX := 0, posY := 0, posZ := 0,
    length := 100, height := 100, thickness := 20, half_thickness := 10,
    main := emptyFace, other_main := emptyFace,
    top := ⟨[], [⟨0, 0, 100, 20, "black", 1/20, some 1⟩], 100, 20⟩,
    bottom := emptyFace, left := emptyFace, right := emptyFace }

/-- A 20mm-wide panel, whose `main`-face connection areas overlap. -/
def panel20C9 : Piece :=
  { name := "tampo", posX := 0, posY := 0, posZ := 0,
    length := 20, height := 300, thickness := 18, half_thickness := 9,
    main := emptyFace, other_main := emptyFace, top := emptyFace,
    bottom := emptyFace, left := emptyFace, right := emptyFace }

/-- A 200mm panel for the C1 counterexample on hardcoded area ids. -/
def panelC1 : Piece :=
  { name := "tampo", posX := 0, posY := 0, posZ := 0,
    length := 200, height := 300, thickness := 20, half_thickness := 10,
    main := emptyFace, other_main := emptyFace, top := emptyFace,
    bottom := emptyFace, left := emptyFace, right := emptyFace }

/-- A 210×300×20 panel: corner holes on `main` are 190mm apart although the
face dimension exceeds 200mm. -/
def pieceC6 : Piece :=
  { name := "tampo", posX := 0, posY := 0, posZ := 0,
    length := 210, height := 300, thickness := 20, half_thickness := 10,
    main := emptyFace, other_main := emptyFace, top := emptyFace,
    bottom := emptyFace, left := emptyFace, right := emptyFace }

/-- A board whose 20×300 `main` face has one hole at (10, 10), for the
Scenario 5 mirroring witness. -/
def pieceC5 : Piece :=
  { name := "costas", posX := 0, posY := 0, posZ := 0,
    length := 20, height := 300, thickness := 20, half_thickness := 10,
    main := ⟨[App.criar_hole 10 10 "flap_corner" 20 "dowel_M_with_glue" none (some 10) (some 8)],
            [], 20, 300⟩,
    other_main := emptyFace, top := emptyFace, bottom := emptyFace,
    left := emptyFace, right := emptyFace }

/-- The mirrored area covering the whole 20×300 face of `pieceC5`. -/
def areaC5 : ConnArea := ⟨0, 0, 20, 300, "gray", 1/10, none⟩

/-- A src/legs.py piece whose `top` face already holds the connection area
obtained from the rectangle (0, 50)×(0, 20) after the 1mm margins. -/
def lpC9 : Legs.LPiece :=
  ⟨"perna", ⟨0, 0, 0, 0, 0, 0⟩, 100, 100, 20, 1,
    [⟨"top", [], [⟨1, 1, 49, 19, "black", 1/20, 7⟩]⟩]⟩

/-! ## Rounding lemmas -/

theorem rat_floor_eq_intFloor (q : ℚ) : Rat.floor q = ⌊q⌋ := by
  rw [Rat.floor_def', Rat.floor_def]

theorem floor_le_hre (q : ℚ) : ⌊q⌋ ≤ hre q := by
  unfold hre
  rw [rat_floor_eq_intFloor]
  split_ifs <;> omega

theorem hre_le_floor_add_one (q : ℚ) : hre q ≤ ⌊q⌋ + 1 := by
  unfold hre
  rw [rat_floor_eq_intFloor]
  split_ifs <;> omega

theorem abs_hre_sub_le (q : ℚ) : |(hre q : ℚ) - q| ≤ 1/2 := by
  have h1 : ((⌊q⌋ : ℤ) : ℚ) ≤ q := Int.floor_le q
  have h2 : q < (⌊q⌋ : ℚ) + 1 := Int.lt_floor_add_one q
  unfold hre
  rw [rat_floor_eq_intFloor]
  split_ifs <;> rw [abs_le] <;> push_cast <;> constructor <;> linarith

theorem hre_intCast (n : ℤ) : hre (n : ℚ) = n := by
  unfold hre
  rw [rat_floor_eq_intFloor]
  have h : ⌊(n : ℚ)⌋ = n := Int.floor_intCast n
  rw [h]
  split_ifs with h1 h2 <;> first
  | rfl
  | · exfalso
      rw [sub_self] at *
      norm_num at *

theorem hre_mono {q r : ℚ} (h : q ≤ r) : hre q ≤ hre r := by
  rcases lt_or_eq_of_le (Int.floor_mono h) with hf | hf
  · calc hre q ≤ ⌊q⌋ + 1 := hre_le_floor_add_one q
    _ ≤ ⌊r⌋ := by omega
    _ ≤ hre r := floor_le_hre r
  · unfold hre
    rw [rat_floor_eq_intFloor, rat_floor_eq_intFloor, ← hf]
    split_ifs <;> first
    | omega
    | linarith

theorem round1_mono {v w : ℚ} (h : v ≤ w) : round1 v ≤ round1 w := by
  unfold round1
  have h2 : ((hre (v * 10) : ℤ) : ℚ) ≤ ((hre (w * 10) : ℤ) : ℚ) := by
    exact_mod_cast hre_mono (by linarith : v * 10 ≤ w * 10)
  linarith

theorem round1_decimal (m : ℤ) : round1 ((m : ℚ) / 10) = (m : ℚ) / 10 := by
  unfold round1
  have h : ((m : ℚ) / 10) * 10 = (m : ℚ) := by field_simp
  rw [h, hre_intCast]

theorem round1_idem (v : ℚ) : round1 (round1 v) = round1 v := by
  rw [show round1 v = ((hre (v * 10) : ℤ) : ℚ) / 10 from rfl]
  exact round1_decimal _

theorem abs_round1_sub_le (v : ℚ) : |round1 v - v| ≤ 1/20 := by
  unfold round1
  have h := abs_hre_sub_le (v * 10)
  rw [abs_le] at h ⊢
  constructor <;> linarith [h.1, h.2]

/-- On a one-decimal value, a distance below 0.1 to an integer means the
value is that integer. -/
theorem decimal_near_int_lt {m n : ℤ}
    (hc : |((m : ℚ)) / 10 - (n : ℚ)| < 1/10) : (n : ℚ) = (m : ℚ) / 10 := by
  have he : (m : ℚ) / 10 - (n : ℚ) = ((m : ℚ) - 10 * (n : ℚ)) / 10 := by ring
  rw [he, abs_div, show |(10 : ℚ)| = 10 by norm_num] at hc
  have habs : |(m : ℚ) - 10 * (n : ℚ)| < 1 := by linarith
  have h2 : |((m - 10 * n : ℤ) : ℚ)| < 1 := by push_cast; exact habs
  have h3 : |m - 10 * n| < 1 := by exact_mod_cast h2
  rw [abs_lt] at h3
  have h4 : m = 10 * n := by omega
  rw [h4]
  push_cast
  ring

/-- On a one-decimal value, a distance of at most 0.15 to an integer is in
fact at most 0.1. -/
theorem decimal_near_int_le {m n : ℤ}
    (hc : |((m : ℚ)) / 10 - (n : ℚ)| ≤ 3/20) :
    |((m : ℚ)) / 10 - (n : ℚ)| ≤ 1/10 := by
  have he : (m : ℚ) / 10 - (n : ℚ) = ((m : ℚ) - 10 * (n : ℚ)) / 10 := by ring
  rw [he, abs_div, show |(10 : ℚ)| = 10 by norm_num] at hc ⊢
  have habs : |(m : ℚ) - 10 * (n : ℚ)| ≤ 3/2 := by linarith
  have h2 : |((m - 10 * n : ℤ) : ℚ)| < 2 := by push_cast; linarith
  have h3 : |m - 10 * n| < 2 := by exact_mod_cast h2
  have h4 : |m - 10 * n| ≤ 1 := by
    rw [abs_lt] at h3
    rw [abs_le]
    omega
  have h5 : |((m - 10 * n : ℤ) : ℚ)| ≤ 1 := by exact_mod_cast h4
  have h6 : |(m : ℚ) - 10 * (n : ℚ)| ≤ 1 := by push_cast at h5; linarith [h5]
  linarith

theorem genjson_arredondar_eq_round1 (v : ℚ) : GenJson.arredondar v = round1 v := by
  unfold GenJson.arredondar
  split_ifs with hc
  · rw [show round1 v = ((hre (v * 10) : ℤ) : ℚ) / 10 from rfl] at hc ⊢
    exact decimal_near_int_lt hc
  · rfl

theorem legs_round_to_one_decimal_eq_round1 (v : ℚ) :
    Legs.round_to_one_decimal v = round1 v := by
  unfold Legs.round_to_one_decimal
  split_ifs with hc
  · rw [show round1 v = ((hre (v * 10) : ℤ) : ℚ) / 10 from rfl] at hc ⊢
    exact decimal_near_int_lt hc
  · rfl

theorem abs_app_arredondar_sub_le (v : ℚ) : |App.arredondar v - v| ≤ 3/20 := by
  unfold App.arredondar
  split_ifs with hc
  · have h2 : |round1 v - (hre (round1 v) : ℚ)| ≤ 1/10 := by
      rw [show round1 v = ((hre (v * 10) : ℤ) : ℚ) / 10 from rfl] at hc ⊢
      exact decimal_near_int_le hc
    have h3 := abs_round1_sub_le v
    have h4 : |(hre (round1 v) : ℚ) - v| ≤
        |(hre (round1 v) : ℚ) - round1 v| + |round1 v - v| := abs_sub_le _ _ _
    rw [abs_sub_comm ((hre (round1 v) : ℚ)) (round1 v)] at h4
    linarith
  · exact le_trans (abs_round1_sub_le v) (by norm_num)

/-! ## Face dictionary lemmas -/

theorem face_setFaceHoles_holes {p : Piece} {fn : String} (hfn : fn ∈ faceNames)
    (hs : List Hole) : ((p.setFaceHoles fn hs).face fn).holes = hs := by
  fin_cases hfn <;> rfl

/-! ## Sorting lemmas for `determine_dimensions` -/

theorem mem_insertDesc {x z : ℚ} {l : List ℚ} : z ∈ insertDesc x l ↔ z = x ∨ z ∈ l := by
  induction l with
  | nil => simp [insertDesc]
  | cons y ys ih =>
    unfold insertDesc
    split_ifs <;> simp [ih] <;> tauto

theorem insertDesc_sorted {x : ℚ} {l : List ℚ} (h : l.Sorted (· ≥ ·)) :
    (insertDesc x l).Sorted (· ≥ ·) := by
  induction l with
  | nil => simp [insertDesc]
  | cons y ys ih =>
    rw [List.sorted_cons] at h
    unfold insertDesc
    split_ifs with hyx
    · rw [List.sorted_cons]
      refine ⟨?_, ?_⟩
      · intro b hb
        rcases List.mem_cons.mp hb with hb | hb
        · subst hb
          linarith
        · have := h.1 b hb
          linarith
      · rw [List.sorted_cons]
        exact h
    · rw [List.sorted_cons]
      refine ⟨?_, ih h.2⟩
      intro b hb
      rcases mem_insertDesc.mp hb with hb | hb
      · subst hb
        linarith
      · exact h.1 b hb

theorem pySortedDesc_sorted (l : List ℚ) : (pySortedDesc l).Sorted (· ≥ ·) := by
  unfold pySortedDesc
  induction l with
  | nil => simp
  | cons x xs ih => exact insertDesc_sorted ih

theorem length_insertDesc (x : ℚ) (l : List ℚ) : (insertDesc x l).length = l.length + 1 := by
  induction l with
  | nil => rfl
  | cons y ys ih =>
    unfold insertDesc
    split_ifs <;> simp [ih]

/-- C7: for every part built from its three projections, the classified
dimensions satisfy thickness ≤ length ≤ height, and half_thickness is the
one-decimal rounding of thickness/2, for all positive extents. -/
theorem c7_dimensions_ordered (a b c : ℚ) (ha : 0 < a) (hb : 0 < b) (hc : 0 < c) :
    (GenJson.determine_dimensions [a, b, c]).thickness ≤
        (GenJson.determine_dimensions [a, b, c]).length ∧
      (GenJson.determine_dimensions [a, b, c]).length ≤
        (GenJson.determine_dimensions [a, b, c]).height ∧
      (GenJson.determine_dimensions [a, b, c]).half_thickness =
        GenJson.arredondar ((GenJson.determine_dimensions [a, b, c]).thickness / 2) := by
  obtain ⟨x, y, z, hxyz⟩ : ∃ x y z, pySortedDesc [a, b, c] = [x, y, z] := by
    have hlen : (pySortedDesc [a, b, c]).length = 3 := by
      unfold pySortedDesc
      simp [List.foldr, length_insertDesc]
    match hm : pySortedDesc [a, b, c] with
    | [x, y, z] => exact ⟨x, y, z, rfl⟩
    | [] | [_] | [_, _] | _ :: _ :: _ :: _ :: _ => rw [hm] at hlen; simp at hlen
  have hs := pySortedDesc_sorted [a, b, c]
  rw [hxyz] at hs
  rw [List.sorted_cons, List.sorted_cons, List.sorted_cons] at hs
  have hxy : x ≥ y := hs.1 y (by simp)
  have hyz : y ≥ z := hs.2.1 z (by simp)
  unfold GenJson.determine_dimensions
  rw [hxyz]
  refine ⟨by simpa using hyz, by simpa using hxy, rfl⟩

/-- Witness for C7 at the extents (300, 20, 200). -/
theorem c7_witness :
    (GenJson.determine_dimensions [(300 : ℚ), 20, 200]).thickness ≤
        (GenJson.determine_dimensions [(300 : ℚ), 20, 200]).length ∧
      (GenJson.determine_dimensions [(300 : ℚ), 20, 200]).length ≤
        (GenJson.determine_dimensions [(300 : ℚ), 20, 200]).height ∧
      (GenJson.determine_dimensions [(300 : ℚ), 20, 200]).half_thickness =
        GenJson.arredondar ((GenJson.determine_dimensions [(300 : ℚ), 20, 200]).thickness / 2) :=
  c7_dimensions_ordered 300 20 200 (by norm_num) (by norm_num) (by norm_num)

/-- C8: a part with a missing frontal projection is excluded from the built
part list entirely (the builder yields `none`, never an exception) and the
remaining parts are unaffected. -/
theorem c8_missing_projection_excluded (nome : String) (views : App.Views)
    (hfra : views.frontal = none) (l1 l2 : List (String × App.Views)) :
    App.construir_peca_3d nome views = none ∧
      App.buildPieces (l1 ++ [(nome, views)] ++ l2) = App.buildPieces (l1 ++ l2) := by
  have hnone : App.construir_peca_3d nome views = none := by
    unfold App.construir_peca_3d
    rw [hfra]
    cases views.top <;> cases views.lateral <;> rfl
  refine ⟨hnone, ?_⟩
  unfold App.buildPieces
  simp [List.filterMap_append, hnone]

/-- Witness for C8: a part with top and lateral projections but no frontal
projection builds no piece. -/
theorem c8_witness :
    App.construir_peca_3d "tampo"
        ⟨some ⟨0, 0, 30, 20⟩, some ⟨0, 0, 2, 20⟩, none⟩ = none ∧
      App.buildPieces ([] ++ [("tampo",
          (⟨some ⟨0, 0, 30, 20⟩, some ⟨0, 0, 2, 20⟩, none⟩ : App.Views))] ++ []) =
        App.buildPieces ([] ++ []) :=
  c8_missing_projection_excluded "tampo" ⟨some ⟨0, 0, 30, 20⟩, some ⟨0, 0, 2, 20⟩, none⟩
    rfl [] []

/-- Every piece built by `construir_peca_3d` starts with six empty hole
lists. -/
theorem construir_faces_empty {nome : String} {views : App.Views} {p : Piece}
    (h : App.construir_peca_3d nome views = some p) :
    ∀ fn : String, (p.face fn).holes = [] := by
  unfold App.construir_peca_3d at h
  cases htop : views.top with
  | none => rw [htop] at h; cases views.lateral <;> cases views.frontal <;> simp at h
  | some sup =>
    cases hlat : views.lateral with
    | none => rw [htop, hlat] at h; cases views.frontal <;> simp at h
    | some lat =>
      cases hfra : views.frontal with
      | none => rw [htop, hlat, hfra] at h; simp at h
      | some fra =>
        rw [htop, hlat, hfra] at h
        simp only [Option.some.injEq] at h
        subst h
        intro fn
        unfold Piece.face
        split_ifs <;> rfl

/-- The `targetType` histogram of a list of hole-free pieces is empty. -/
theorem app_votes_nil (ps : List Piece)
    (h : ∀ p ∈ ps, ∀ fn : String, (p.face fn).holes = []) :
    App.model_template_votes ps = [] := by
  unfold App.model_template_votes
  induction ps with
  | nil => rfl
  | cons p rest ih =>
    rw [List.flatMap_cons]
    rw [ih (fun q hq fn => h q (List.mem_cons_of_mem p hq) fn)]
    have hp : ∀ fn : String, (p.face fn).holes = [] := h p (List.mem_cons_self p rest)
    simp [hp]

/-- C10: in the pipelines, `select_model_template` runs on the freshly built
(hole-free) pieces, so its histogram is empty and it returns the default
thickness 20 for every input; a hole stamped with template 20 by `criar_hole`
carries targetType 20. -/
theorem c10_template_default (entries : List (String × App.Views)) :
    App.select_model_template (App.buildPieces entries) = 20 ∧
      ∀ (x y : ℚ) (ty hw : String) (cid : Option ℕ) (d di : Option ℚ),
        (App.criar_hole x y ty 20 hw cid d di).targetType = 20 := by
  constructor
  · have hvotes : App.model_template_votes (App.buildPieces entries) = [] := by
      refine app_votes_nil _ ?_
      intro p hp fn
      obtain ⟨e, _, he⟩ := List.mem_filterMap.mp hp
      exact construir_faces_empty he fn
    unfold App.select_model_template
    rw [hvotes]
    rfl
  · intro x y ty hw cid d di
    show truncInt 20 = 20
    decide

/-- C3 (amended): the src/app.py Cleanup keeps a hole if and only if its
(x, y) lies inside some connection area of its face — the hole's connection
id and protected type are not consulted — and kept holes are unchanged. -/
theorem c3_cleanup_keeps_iff_inside (connection_areas : List ConnArea)
    (holes : List Hole) (h : Hole) :
    h ∈ App.clean_face_holes connection_areas holes ↔
      h ∈ holes ∧ connection_areas.any (fun area => App.hole_in_area area h) = true := by
  unfold App.clean_face_holes
  exact List.mem_filter

/-- C3 counterexample: a `flap_corner` hole with no connection id on a face
with no connection areas.  It fails condition (b) of the claim (its type is
protected), so the claim keeps it — but the src/app.py Cleanup deletes it. -/
theorem c3_counterexample :
    cleanupClaimC3 []
        [App.criar_hole 10 10 "flap_corner" 20 "dowel_M_with_glue" none (some 10) (some 8)] =
        [App.criar_hole 10 10 "flap_corner" 20 "dowel_M_with_glue" none (some 10) (some 8)] ∧
      App.clean_face_holes []
        [App.criar_hole 10 10 "flap_corner" 20 "dowel_M_with_glue" none (some 10) (some 8)] =
        [] := by
  constructor <;> rfl

/-- C4 (amended): src/app.py's `add_hole_if_not_exists` is a pure no-op when
any existing hole of the face lies within 8mm of the request on both axes,
and it preserves 5mm pairwise separation of the face's holes, so two holes
requested within 5mm of each other collapse into one. -/
theorem c4_hole_spacing (τ : ℚ) (holes : List Hole) (x y : ℚ) (ht hw : String)
    (d di : Option ℚ) (cid : Option ℕ) :
    ((∃ eh ∈ holes, |eh.x - x| < 8 ∧ |eh.y - y| < 8) →
        App.add_hole_if_not_exists τ holes x y ht hw d di cid = holes) ∧
      (Sep5 holes → Sep5 (App.add_hole_if_not_exists τ holes x y ht hw d di cid)) := by
  constructor
  · intro hex
    unfold App.add_hole_if_not_exists
    rw [if_pos]
    rw [List.any_eq_true]
    obtain ⟨eh, hmem, hx, hy⟩ := hex
    exact ⟨eh, hmem, by simp [hx, hy]⟩
  · intro hsep
    unfold App.add_hole_if_not_exists
    split_ifs with hany
    · exact hsep
    · have hfar : ∀ eh ∈ holes, 8 ≤ |eh.x - x| ∨ 8 ≤ |eh.y - y| := by
        intro eh hmem
        by_contra hcon
        push_neg at hcon
        rw [Bool.not_eq_true, List.any_eq_false] at hany
        have := hany eh hmem
        simp [hcon.1, hcon.2] at this
      unfold Sep5 at hsep ⊢
      rw [List.pairwise_append]
      refine ⟨hsep, List.pairwise_singleton _ _, ?_⟩
      intro a ha b hb
      rw [List.mem_singleton] at hb
      subst hb
      simp only [App.criar_hole]
      have hbx := abs_app_arredondar_sub_le x
      have hby := abs_app_arredondar_sub_le y
      rcases hfar a ha with hfx | hfy
      · left
        have htri := abs_sub_le a.x (App.arredondar x) x
        have h1 : |App.arredondar x - x| ≤ 3/20 := hbx
        linarith
      · right
        have htri := abs_sub_le a.y (App.arredondar y) y
        have h1 : |App.arredondar y - y| ≤ 3/20 := hby
        linarith

unseal Rat.add Rat.mul Rat.sub Rat.inv in
/-- Witness for C4: a second request 3mm from an existing hole is dropped
and the face keeps its 5mm separation. -/
theorem c4_witness :
    App.add_hole_if_not_exists 20
        [App.criar_hole 0 0 "top_corner" 20 "glue" none (some 20) none]
        3 0 "top_corner" "glue" (some 20) none none =
        [App.criar_hole 0 0 "top_corner" 20 "glue" none (some 20) none] ∧
      Sep5 (App.add_hole_if_not_exists 20
        [App.criar_hole 0 0 "top_corner" 20 "glue" none (some 20) none]
        3 0 "top_corner" "glue" (some 20) none none) :=
  ⟨(c4_hole_spacing 20 [App.criar_hole 0 0 "top_corner" 20 "glue" none (some 20) none]
      3 0 "top_corner" "glue" (some 20) none none).1
      ⟨App.criar_hole 0 0 "top_corner" 20 "glue" none (some 20) none, by decide⟩,
    (c4_hole_spacing 20 [App.criar_hole 0 0 "top_corner" 20 "glue" none (some 20) none]
      3 0 "top_corner" "glue" (some 20) none none).2 (by decide)⟩

unseal Rat.add Rat.mul Rat.sub Rat.inv in
/-- C4 counterexample: src/legs.py's `add_hole` suppresses only exact
coordinate matches, so two holes requested 3mm apart (within 5mm) on the
same face both land on the face — they do not collapse into one. -/
theorem c4_counterexample :
    (Legs.add_hole (Legs.add_hole legPieceC4 "top" 0 0 "top_corner" none 20)
        "top" 3 0 "top_corner" none 20).faces.map
        (fun f => f.holes.map (fun h => (h.x, h.y))) = [[(0, 0), (3, 0)]] ∧
      |(3 : ℚ) - 0| ≤ 5 := by
  constructor <;> decide

/-- Membership in a fold that conditionally appends one transformed element
per input (the shape of the singer-mirroring loop). -/
theorem mem_foldl_guarded_append {α β : Type} (f : β → α) (p : List α → β → Bool) :
    ∀ (l : List β) (init : List α) (x : α),
      x ∈ l.foldl (fun acc s => if p acc s then acc else acc ++ [f s]) init →
      x ∈ init ∨ ∃ s ∈ l, x = f s := by
  intro l
  induction l with
  | nil =>
    intro init x hx
    exact Or.inl hx
  | cons s rest ih =>
    intro init x hx
    rw [List.foldl_cons] at hx
    rcases ih _ x hx with hx' | ⟨s', hs', rfl⟩
    · split_ifs at hx' with hc
      · exact Or.inl hx'
      · rcases List.mem_append.mp hx' with hin | hin
        · exact Or.inl hin
        · right
          exact ⟨s, List.mem_cons_self s rest, List.mem_singleton.mp hin⟩
    · right
      exact ⟨s', List.mem_cons_of_mem s hs', rfl⟩

/-- C5: every hole produced by the singer mirroring pass on the target face
is either a pre-existing hole or comes from a source hole (x, y) inside the
area, placed at x unchanged and y reflected across the face's horizontal
center axis (y ↦ 2·(height/2) − y), up to the storage rounding rule. -/
theorem c5_singer_mirror (piece : Piece) (sfn tfn : String) (area : ConnArea)
    (τ : ℚ) (h : Hole) (htfn : tfn ∈ faceNames)
    (hmem : h ∈ ((App.add_singer_holes_in_area piece sfn tfn area τ).face tfn).holes) :
    h ∈ (piece.face tfn).holes ∨
      ∃ s ∈ (piece.face sfn).holes,
        (area.x_min ≤ s.x ∧ s.x ≤ area.x_max ∧ area.y_min ≤ s.y ∧ s.y ≤ area.y_max) ∧
          h.x = App.arredondar s.x ∧
          h.y = App.arredondar (2 * (piece.height / 2) - s.y) := by
  unfold App.add_singer_holes_in_area at hmem
  rw [face_setFaceHoles_holes htfn] at hmem
  have hstep := mem_foldl_guarded_append
    (fun s : Hole => App.criar_hole s.x (2 * (piece.height / 2) - s.y)
      (App.determine_singer_hole_type piece s.x (2 * (piece.height / 2) - s.y) tfn)
      τ "singer_dowel" none (some 30) none)
    (fun acc s => App.hole_exists_near_position acc s.x (2 * (piece.height / 2) - s.y) 8)
    _ _ _ hmem
  rcases hstep with hin | ⟨s, hs, rfl⟩
  · exact Or.inl hin
  · right
    rw [List.mem_filter] at hs
    refine ⟨s, hs.1, ?_, rfl, rfl⟩
    have hcond := hs.2
    simp only [Bool.and_eq_true, decide_eq_true_eq] at hcond
    exact ⟨hcond.1.1.1, hcond.1.1.2, hcond.1.2, hcond.2⟩

unseal Rat.add Rat.mul Rat.sub Rat.inv in
/-- Witness for C5 (Scenario 5): the hole at (10, 10) on the 20×300 `main`
face of `pieceC5` mirrors onto `other_main` at (10, 290) — x unchanged and y
reflected across the center axis y = 150. -/
theorem c5_witness :
    App.criar_hole 10 290 "singer_flap" 20 "singer_dowel" none (some 30) none ∈
        (pieceC5.face "other_main").holes ∨
      ∃ s ∈ (pieceC5.face "main").holes,
        (areaC5.x_min ≤ s.x ∧ s.x ≤ areaC5.x_max ∧ areaC5.y_min ≤ s.y ∧ s.y ≤ areaC5.y_max) ∧
          (App.criar_hole 10 290 "singer_flap" 20 "singer_dowel" none (some 30) none).x =
            App.arredondar s.x ∧
          (App.criar_hole 10 290 "singer_flap" 20 "singer_dowel" none (some 30) none).y =
            App.arredondar (2 * (pieceC5.height / 2) - s.y) :=
  c5_singer_mirror pieceC5 "main" "other_main" areaC5 20
    (App.criar_hole 10 290 "singer_flap" 20 "singer_dowel" none (some 30) none)
    (by decide) (by decide)

/-- C6 (amended): src/app.py's `add_intermediate_holes_if_needed` adds no
hole when the two holes are at most 200mm apart, and adds exactly one
`*_central` hole at their midpoint (and nothing else, no further subdivision)
when they are more than 200mm apart and no existing hole sits within 8mm of
the midpoint.  (Distances are compared squared: `sqrt d > 200 ↔ d > 200²`.) -/
theorem c6_intermediate_midpoint (τ : ℚ) (holes : List Hole) (x1 y1 x2 y2 : ℚ)
    (ht hw : String) (d di : Option ℚ) :
    ((x2 - x1) ^ 2 + (y2 - y1) ^ 2 ≤ 200 ^ 2 →
        App.add_intermediate_holes_if_needed τ holes (x1, y1) (x2, y2) ht hw d di = holes) ∧
      ((x2 - x1) ^ 2 + (y2 - y1) ^ 2 > 200 ^ 2 →
        (∀ eh ∈ holes, 8 ≤ |eh.x - (x1 + x2) / 2| ∨ 8 ≤ |eh.y - (y1 + y2) / 2|) →
        App.add_intermediate_holes_if_needed τ holes (x1, y1) (x2, y2) ht hw d di =
          holes ++ [App.criar_hole ((x1 + x2) / 2) ((y1 + y2) / 2) ht τ hw none d di]) := by
  constructor
  · intro hle
    unfold App.add_intermediate_holes_if_needed
    rw [if_neg]
    intro hgt
    simp only at hgt
    linarith
  · intro hgt hfree
    unfold App.add_intermediate_holes_if_needed
    rw [if_pos (by simpa using hgt)]
    unfold App.add_hole_if_not_exists
    rw [if_neg]
    intro hany
    rw [List.any_eq_true] at hany
    obtain ⟨eh, hmem, hp⟩ := hany
    simp only [Bool.and_eq_true, decide_eq_true_eq] at hp
    rcases hfree eh hmem with hc | hc
    · linarith [hp.1]
    · linarith [hp.2]

unseal Rat.add Rat.mul Rat.sub Rat.inv in
/-- Witness for C6 (Scenario 2): corner holes 250mm apart gain exactly one
`flap_central` hole at the midpoint (135, 10). -/
theorem c6_witness :
    App.add_intermediate_holes_if_needed 20
        [App.criar_hole 10 10 "flap_corner" 20 "dowel_M_with_glue" none (some 10) (some 8),
          App.criar_hole 260 10 "flap_corner" 20 "dowel_M_with_glue" none (some 10) (some 8)]
        (10, 10) (260, 10) "flap_central" "dowel_M_with_glue" (some 10) (some 8) =
      [App.criar_hole 10 10 "flap_corner" 20 "dowel_M_with_glue" none (some 10) (some 8),
        App.criar_hole 260 10 "flap_corner" 20 "dowel_M_with_glue" none (some 10) (some 8)] ++
        [App.criar_hole 135 10 "flap_central" 20 "dowel_M_with_glue" none (some 10) (some 8)] :=
  (c6_intermediate_midpoint 20
      [App.criar_hole 10 10 "flap_corner" 20 "dowel_M_with_glue" none (some 10) (some 8),
        App.criar_hole 260 10 "flap_corner" 20 "dowel_M_with_glue" none (some 10) (some 8)]
      10 10 260 10 "flap_central" "dowel_M_with_glue" (some 10) (some 8)).2
    (by decide) (by decide)

unseal Rat.add Rat.mul Rat.sub Rat.inv in
/-- C6 counterexample: src/generate_furniture_json.py gates central holes on
the face dimension, not on the corner-hole distance: on a 210×300×20 panel
the bottom corner holes are 190mm apart (≤ 200mm), yet `l > 200` inserts a
`flap_central` hole at (105, 10). -/
theorem c6_counterexample :
    GenJson.criar_hole 105 10 "flap_central" 20 "dowel_M_with_glue" none (some 10) (some 8) ∈
        ((GenJson.adicionar_holes_sistematicos pieceC6 20).face "main").holes ∧
      (210 : ℚ) - 2 * 10 ≤ 200 := by
  constructor <;> decide

theorem connection_hole_exists_iff (hs : List Hole) (c : ℕ) :
    GenJson.connection_hole_exists hs c = true ↔ 0 < countId c hs := by
  unfold GenJson.connection_hole_exists countId
  rw [List.any_eq_true, List.length_pos_iff_exists_mem]
  constructor
  · rintro ⟨h, hm, hp⟩
    exact ⟨h, List.mem_filter.mpr ⟨hm, hp⟩⟩
  · rintro ⟨h, hm⟩
    obtain ⟨hm', hp⟩ := List.mem_filter.mp hm
    exact ⟨h, hm', hp⟩

theorem countId_append_hit (c : ℕ) (hs : List Hole) (h : Hole)
    (hc : h.connectionId = some c) : countId c (hs ++ [h]) = countId c hs + 1 := by
  unfold countId
  rw [List.filter_append]
  simp [hc]

/-- C2 (amended): src/generate_furniture_json.py's `map_face_holes_proximity`
keeps the per-connection-id hole counts of the two connecting faces equal:
when both faces carry an area for the id it creates exactly one hole per
side (if none exists yet), otherwise it changes nothing. -/
theorem c2_balanced_counts (p1 p2 : Piece) (face1 face2 : String) (conn_id : ℕ)
    (τ : ℚ) (h1 : face1 ∈ faceNames) (h2 : face2 ∈ faceNames)
    (hpre : countId conn_id (p1.face face1).holes = countId conn_id (p2.face face2).holes) :
    countId conn_id
        (((GenJson.map_face_holes_proximity p1 p2 face1 face2 conn_id τ).1.face face1).holes) =
      countId conn_id
        (((GenJson.map_face_holes_proximity p1 p2 face1 face2 conn_id τ).2.face face2).holes) := by
  unfold GenJson.map_face_holes_proximity
  dsimp only
  by_cases hempty : (p1.face face1).connAreas.filter (fun a => a.connectionId == some conn_id) = [] ∨
      (p2.face face2).connAreas.filter (fun a => a.connectionId == some conn_id) = []
  · rw [if_pos hempty]
    exact hpre
  rw [if_neg hempty]
  dsimp only
  rw [face_setFaceHoles_holes h1, face_setFaceHoles_holes h2]
  rcases he1 : GenJson.connection_hole_exists (p1.face face1).holes conn_id with _ | _ <;>
    rcases he2 : GenJson.connection_hole_exists (p2.face face2).holes conn_id with _ | _
  · rw [if_neg Bool.false_ne_true, if_neg Bool.false_ne_true]
    rw [countId_append_hit _ _ _ rfl, countId_append_hit _ _ _ rfl, hpre]
  · exfalso
    have hc2 := (connection_hole_exists_iff (p2.face face2).holes conn_id).mp he2
    have hc1 : ¬ 0 < countId conn_id (p1.face face1).holes := by
      intro hpos
      have := (connection_hole_exists_iff (p1.face face1).holes conn_id).mpr hpos
      rw [he1] at this
      exact Bool.false_ne_true this
    omega
  · exfalso
    have hc1 := (connection_hole_exists_iff (p1.face face1).holes conn_id).mp he1
    have hc2 : ¬ 0 < countId conn_id (p2.face face2).holes := by
      intro hpos
      have := (connection_hole_exists_iff (p2.face face2).holes conn_id).mpr hpos
      rw [he2] at this
      exact Bool.false_ne_true this
    omega
  · rw [if_pos rfl, if_pos rfl]
    exact hpre

unseal Rat.add Rat.mul Rat.sub Rat.inv in
/-- Witness for C2: a leg top face and a panel main face, each with an area
for connection 1 and no holes, end with equally many holes carrying id 1. -/
theorem c2_witness :
    countId 1 (((GenJson.map_face_holes_proximity legC2W panC2 "top" "main" 1 20).1.face
        "top").holes) =
      countId 1 (((GenJson.map_face_holes_proximity legC2W panC2 "top" "main" 1 20).2.face
        "main").holes) :=
  c2_balanced_counts legC2W panC2 "top" "main" 1 20 (by decide) (by decide) (by decide)

unseal Rat.add Rat.mul Rat.sub Rat.inv in
/-- C2 counterexample: src/app.py's `map_leg_holes_to_top_panel` on
connection id 2 stamps the leg hole with id 2 but gives the mapped panel
hole the area-based id 1, so the id-2 hole counts of the two faces differ
(1 on the leg's face, 0 on the panel's face). -/
theorem c2_counterexample :
    countId 2 (((App.map_leg_holes_to_top_panel legC2 panC2 "top" "main" 2 20).1.face
        "top").holes) = 1 ∧
      countId 2 (((App.map_leg_holes_to_top_panel legC2 panC2 "top" "main" 2 20).2.face
        "main").holes) = 0 := by
  constructor <;> decide

theorem areaInv_append_new (as : List Legs.LArea) (xm xM ym yM : ℚ) (cid : ℕ)
    (hinv : Legs.AreaInv as)
    (hno : as.any (Legs.overlapsB xm xM ym yM) = false) :
    Legs.AreaInv (as ++ [⟨Legs.round_to_one_decimal xm, Legs.round_to_one_decimal ym,
      Legs.round_to_one_decimal xM, Legs.round_to_one_decimal yM, "black", 1/20, cid⟩]) := by
  obtain ⟨hpw, hdec⟩ := hinv
  rw [List.any_eq_false] at hno
  constructor
  · rw [List.pairwise_append]
    refine ⟨hpw, List.pairwise_singleton _ _, ?_⟩
    intro a ha b hb
    rw [List.mem_singleton] at hb
    subst hb
    have hnov := hno a ha
    have hd : ¬ xm < a.x_max ∨ ¬ xM > a.x_min ∨ ¬ ym < a.y_max ∨ ¬ yM > a.y_min := by
      by_contra hcon
      push_neg at hcon
      apply hnov
      simp only [Legs.overlapsB, Bool.and_eq_true, decide_eq_true_eq]
      exact ⟨⟨⟨hcon.1, hcon.2.1⟩, hcon.2.2.1⟩, hcon.2.2.2⟩
    obtain ⟨hax, hay, haX, haY⟩ := hdec a ha
    rintro ⟨h1, h2, h3, h4⟩
    dsimp only at h1 h2 h3 h4
    rw [legs_round_to_one_decimal_eq_round1] at h1 h2 h3 h4
    rcases hd with hc | hc | hc | hc
    · push_neg at hc
      have := round1_mono hc
      rw [haX] at this
      linarith
    · push_neg at hc
      have := round1_mono hc
      rw [hax] at this
      linarith
    · push_neg at hc
      have := round1_mono hc
      rw [haY] at this
      linarith
    · push_neg at hc
      have := round1_mono hc
      rw [hay] at this
      linarith
  · intro a ha
    rcases List.mem_append.mp ha with ha' | ha'
    · exact hdec a ha'
    · rw [List.mem_singleton] at ha'
      subst ha'
      refine ⟨?_, ?_, ?_, ?_⟩ <;>
        simp only [legs_round_to_one_decimal_eq_round1] <;>
        exact round1_idem _

theorem addAreaFirstMatch_inv (fs : String) (xm xM ym yM : ℚ) (cid : ℕ) :
    ∀ (l : List Legs.LFace), (∀ f ∈ l, Legs.AreaInv f.connAreas) →
      ∀ f ∈ Legs.addAreaFirstMatch fs xm xM ym yM cid l, Legs.AreaInv f.connAreas := by
  intro l
  induction l with
  | nil =>
    intro h f hf
    simp [Legs.addAreaFirstMatch] at hf
  | cons g rest ih =>
    intro h f hf
    unfold Legs.addAreaFirstMatch at hf
    split_ifs at hf with hside hov
    · rcases List.mem_cons.mp hf with rfl | hf'
      · exact h f (List.mem_cons_self f rest)
      · exact h f (List.mem_cons_of_mem g hf')
    · rcases List.mem_cons.mp hf with rfl | hf'
      · exact areaInv_append_new g.connAreas xm xM ym yM cid
          (h g (List.mem_cons_self g rest)) (Bool.eq_false_iff.mpr hov)
      · exact h f (List.mem_cons_of_mem g hf')
    · rcases List.mem_cons.mp hf with rfl | hf'
      · exact h f (List.mem_cons_self f rest)
      · exact ih (fun f' hf' => h f' (List.mem_cons_of_mem g hf')) f hf'

theorem addAreaFirstMatch_reject (fs : String) (xm xM ym yM : ℚ) (cid : ℕ) :
    ∀ (l : List Legs.LFace),
      (∀ f ∈ l, f.faceSide = fs →
        f.connAreas.any (Legs.overlapsB xm xM ym yM) = true) →
      Legs.addAreaFirstMatch fs xm xM ym yM cid l = l := by
  intro l
  induction l with
  | nil =>
    intro h
    rfl
  | cons g rest ih =>
    intro h
    unfold Legs.addAreaFirstMatch
    split_ifs with hside hov
    · rfl
    · exact absurd (h g (List.mem_cons_self g rest) (eq_of_beq hside)) hov
    · rw [ih (fun f' hf' hfs => h f' (List.mem_cons_of_mem g hf') hfs)]

/-- C9 (amended): src/legs.py's `add_connection_area` keeps the connection
areas of every face pairwise non-overlapping, and a candidate whose
margin-inset rectangle strictly overlaps an existing area of its face leaves
the piece unchanged — the existing area is kept and nothing is merged. -/
theorem c9_area_invariant (p : Legs.LPiece) (fs : String)
    (x_min x_max y_min y_max : ℚ) (cid : ℕ)
    (hinv : ∀ f ∈ p.faces, Legs.AreaInv f.connAreas) :
    (∀ f ∈ (Legs.add_connection_area p fs x_min x_max y_min y_max cid).faces,
        Legs.AreaInv f.connAreas) ∧
      (fs ∈ p.faces.map (fun f => f.faceSide) →
        (∀ f ∈ p.faces, f.faceSide = fs →
          f.connAreas.any (Legs.overlapsB (x_min + Legs.MARGIN) (x_max - Legs.MARGIN)
            (y_min + Legs.MARGIN) (y_max - Legs.MARGIN)) = true) →
        Legs.add_connection_area p fs x_min x_max y_min y_max cid = p) := by
  have hens : ∀ g ∈ Legs.ensureFace p.faces fs, Legs.AreaInv g.connAreas := by
    intro g hg
    unfold Legs.ensureFace at hg
    split_ifs at hg
    · exact hinv g hg
    · rcases List.mem_append.mp hg with hg' | hg'
      · exact hinv g hg'
      · rw [List.mem_singleton] at hg'
        subst hg'
        refine ⟨List.Pairwise.nil, ?_⟩
        intro a ha
        simp at ha
  constructor
  · intro f hf
    unfold Legs.add_connection_area at hf
    dsimp only at hf
    split_ifs at hf with hdeg
    · exact hens f hf
    · exact addAreaFirstMatch_inv fs _ _ _ _ cid _ hens f hf
  · intro hmem hov
    unfold Legs.add_connection_area
    dsimp only
    have hens' : Legs.ensureFace p.faces fs = p.faces := by
      unfold Legs.ensureFace
      rw [if_pos hmem]
    rw [hens']
    split_ifs with hdeg
    · rfl
    · rw [addAreaFirstMatch_reject _ _ _ _ _ _ _ hov]

unseal Rat.add Rat.mul Rat.sub Rat.inv in
/-- Witness for C9: adding the rectangle (0, 50)×(0, 20), whose 1mm-inset
overlaps the area already stored on the `top` face of `lpC9`, leaves the
piece unchanged, and the non-overlap invariant is preserved. -/
theorem c9_witness :
    Legs.add_connection_area lpC9 "top" 0 50 0 20 9 = lpC9 ∧
      ∀ f ∈ (Legs.add_connection_area lpC9 "top" 0 50 0 20 9).faces,
        Legs.AreaInv f.connAreas :=
  ⟨(c9_area_invariant lpC9 "top" 0 50 0 20 9 (by decide)).2 (by decide) (by decide),
    (c9_area_invariant lpC9 "top" 0 50 0 20 9 (by decide)).1⟩

unseal Rat.add Rat.mul Rat.sub Rat.inv in
/-- C9 counterexample: src/app.py's `create_simple_connection_area_for_piece`
on a 20mm-wide panel appends the two main-face areas [2, 22]×[0, 200] and
[18, 38]×[0, 200] with no overlap check: they strictly overlap each other on
the same face. -/
theorem c9_counterexample :
    ((App.create_simple_connection_area_for_piece panel20C9 "main" 1).face "main").connAreas =
        [⟨2, 0, 22, 200, "black", 1/20, some 1⟩, ⟨18, 0, 38, 200, "black", 1/20, some 1⟩] ∧
      ((2 : ℚ) < 38 ∧ (18 : ℚ) < 22 ∧ (0 : ℚ) < 200) := by
  constructor <;> decide

/-- A fold preserves any invariant its step preserves. -/
theorem foldl_preserve {σ α : Type} (P : σ → Prop) (f : σ → α → σ)
    (hf : ∀ s a, P s → P (f s a)) :
    ∀ (l : List α) (s : σ), P s → P (l.foldl f s) := by
  intro l
  induction l with
  | nil =>
    intro s hs
    exact hs
  | cons a as ih =>
    intro s hs
    rw [List.foldl_cons]
    exact ih _ (hf s a hs)

theorem detect_step_inv (i j : ℕ) (st : GenJson.DetSt) (fp : GenJson.FaceProx)
    (h : GenJson.DetInv st) : GenJson.DetInv (GenJson.detect_step i j st fp) := by
  obtain ⟨hn, hids, hseen, hnd⟩ := h
  unfold GenJson.detect_step
  dsimp only
  split_ifs with hmem
  · exact ⟨hn, hids, hseen, hnd⟩
  · refine ⟨?_, ?_, ?_, ?_⟩
    · simp [hn]
    · rw [List.map_append, hids, List.length_append]
      simp only [List.map_cons, List.map_nil, List.length_cons, List.length_nil, hn]
      rw [List.range'_concat]
      simp [Nat.add_comm]
    · show st.seen ++ _ = _
      simp only [List.map_append, ← hseen, List.map_cons, List.map_nil]
      rfl
    · show (st.seen ++ _).Nodup
      rw [List.nodup_append]
      refine ⟨hnd, List.nodup_singleton _, ?_⟩
      intro a ha hb
      rw [List.mem_singleton] at hb
      subst hb
      exact hmem ha

/-- The detector loop maintains `DetInv` from its initial state. -/
theorem detect_state_inv (pieces : List Piece) : GenJson.DetInv (GenJson.detect_state pieces) := by
  unfold GenJson.detect_state
  refine foldl_preserve _ _ ?_ _ _ ⟨rfl, rfl, rfl, List.nodup_nil⟩
  intro s ip hs
  refine foldl_preserve _ _ ?_ _ _ hs
  intro s' jp hs'
  split_ifs with hij
  · exact foldl_preserve _ _ (fun s'' fp hs'' => detect_step_inv _ _ _ _ hs'') _ _ hs'
  · exact hs'

/-- C1 (amended): src/generate_furniture_json.py's
`detect_connections_by_proximity` produces, for every input list of pieces,
connections whose ids are exactly 1, 2, …, n in detection order (fresh,
monotonically increasing, each accepted pair yielding one record) and whose
order-independent (part, face)-pair keys are pairwise distinct, so no face
pair is re-detected in either order. -/
theorem c1_detect_ids (pieces : List Piece) :
    (GenJson.detect_connections_by_proximity pieces).map (fun c => c.id) =
        List.range' 1 (GenJson.detect_connections_by_proximity pieces).length ∧
      ((GenJson.detect_connections_by_proximity pieces).map GenJson.connKey).Nodup := by
  obtain ⟨hn, hids, hseen, hnd⟩ := detect_state_inv pieces
  refine ⟨hids, ?_⟩
  show (((GenJson.detect_state pieces).conns).map GenJson.connKey).Nodup
  rw [← hseen]
  exact hnd

unseal Rat.add Rat.mul Rat.sub Rat.inv in
/-- C1 counterexample: src/app.py's `create_simple_connection_area_for_piece`
invoked for connection id 2 appends areas that carry `connectionId: 1`, not
`connectionId: 2` — areas belonging to joint 2 do not carry joint 2's id. -/
theorem c1_counterexample :
    ((App.create_simple_connection_area_for_piece panelC1 "main" 2).face "main").connAreas.map
        (fun a => a.connectionId) = [some 1, some 1] ∧
      (2 : ℕ) ≠ 1 := by
  constructor <;> decide
